import Mathlib

/-!
Verification of the ppt-controller-web repository: a WebSocket relay
(Next.js API route, `src/unnamed/part_000`) that pairs one `desktop` and one
`web` client per token and forwards discrete signals between them, together
with the client page (`src/src/pages/index.js`) that classifies pointer
gestures and microphone knocks into the same signal vocabulary.

The relay is embedded as a pure state-transformer over a `ServerState`
(token-indexed room map plus per-connection openness), each handler
returning the list of envelopes sent and close calls issued.  The client
classifiers are embedded as explicit state machines with scheduled timers
(a timer is the absolute time at which its callback runs); a driver fires a
due timer before processing any later event, matching the single-threaded
JS event loop.
-/

/-- Pairing key; compared for equality only, never parsed
(`rooms` is a `Map` keyed by the raw query-string token). -/
abbrev Token := String

/-- The two participant roles, named as in the source
(`role=desktop|web`; the spec calls them receiver/controller). -/
inductive Role where
  | desktop
  | web
deriving DecidableEq, Repr

/-- The peer role: `role === 'desktop' ? 'web' : 'desktop'`. -/
def Role.other : Role → Role
  | .desktop => .web
  | .web => .desktop

/-- A room: `{ desktop: WebSocket|null, web: WebSocket|null }`.
Connections are identified by numeric ids. -/
structure Room where
  desktop : Option Nat
  web : Option Nat
deriving DecidableEq, Repr

/-- Read the slot for a role (`room[role]`). -/
def Room.get (room : Room) : Role → Option Nat
  | .desktop => room.desktop
  | .web => room.web

/-- Write the slot for a role (`room[role] = v`). -/
def Room.set (room : Room) : Role → Option Nat → Room
  | .desktop, v => { room with desktop := v }
  | .web, v => { room with web := v }

/-- The JSON envelopes exchanged on the wire (§6 of the spec; the
`type` field of each `JSON.stringify` call in the source). -/
inductive Envelope where
  | connected (role : Role) (token : Token)
  | status (desktop : Bool) (web : Bool)
  | signal (name : String)
  | error (message : String)
  | pong
deriving DecidableEq, Repr

/-- Relay state: the `rooms` map (`null` room = token never joined; rooms
are never deleted) and each connection's openness
(`ws.readyState === ws.OPEN`). -/
structure ServerState where
  rooms : Token → Option Room
  isOpen : Nat → Bool

/-- The effect of one handler invocation: envelopes sent (target, payload)
and close calls issued (target, code, reason). -/
structure Effect where
  sends : List (Nat × Envelope)
  closes : List (Nat × Nat × String)
deriving DecidableEq, Repr

/-- `getOrCreateRoom(token)`: insert `{desktop: null, web: null}` if the
token is absent, and return the room. -/
def getOrCreateRoom (st : ServerState) (t : Token) : ServerState × Room :=
  match st.rooms t with
  | some room => (st, room)
  | none =>
    ({ st with rooms := fun x => if x = t then some ⟨none, none⟩ else st.rooms x },
     ⟨none, none⟩)

/-- One send of `broadcastStatus`: `if (ws && ws.readyState === ws.OPEN)
ws.send(statusPayload)`. -/
def sendIfOpen (st : ServerState) (slot : Option Nat) (e : Envelope) :
    List (Nat × Envelope) :=
  match slot with
  | some c => if st.isOpen c then [(c, e)] else []
  | none => []

/-- `broadcastStatus(token)`: if the room exists, send
`{type:'status', desktop: !!room.desktop, web: !!room.web}` to each of
`[room.desktop, room.web]` that is non-null and `OPEN`. -/
def broadcastStatus (st : ServerState) (t : Token) : List (Nat × Envelope) :=
  match st.rooms t with
  | none => []
  | some room =>
    sendIfOpen st room.desktop (Envelope.status room.desktop.isSome room.web.isSome) ++
      sendIfOpen st room.web (Envelope.status room.desktop.isSome room.web.isSome)

/-- Role half of the query-string validation:
`['desktop','web'].includes(role)`. -/
def parseRole : String → Option Role
  | "desktop" => some Role.desktop
  | "web" => some Role.web
  | _ => none

/-- The handshake validation `if (!token || !role || !includes(role))`:
`none` means the request is rejected (a missing or empty token is falsy;
a missing or unrecognized role fails the membership test). -/
def parseReq (token roleStr : Option String) : Option (Token × Role) :=
  match token, roleStr with
  | some t, some rs => if t = "" then none else (parseRole rs).map (fun r => (t, r))
  | _, _ => none

/-- The body of the connection handler after validation: create the room,
force-close an `OPEN` occupant of the slot with code 4000
(`'Replaced by new connection'`), install the new connection, send it the
`connected` ack, then broadcast status. -/
def joinRoom (st : ServerState) (ws : Nat) (t : Token) (r : Role) :
    ServerState × Effect :=
  let p := getOrCreateRoom st t
  let room := p.2
  let repl : ServerState × List (Nat × Nat × String) :=
    match room.get r with
    | some c =>
      if p.1.isOpen c then
        ({ p.1 with isOpen := fun x => if x = c then false else p.1.isOpen x },
         [(c, 4000, "Replaced by new connection")])
      else (p.1, [])
    | none => (p.1, [])
  let room2 := room.set r (some ws)
  let st3 := { repl.1 with rooms := fun x => if x = t then some room2 else repl.1.rooms x }
  (st3, { sends := (ws, Envelope.connected r t) :: broadcastStatus st3 t,
          closes := repl.2 })

/-- `wss.on('connection')`: reject an invalid token/role with an error
envelope and close code 1008 (`'Invalid token/role'`), touching no room;
otherwise join. -/
def handleConnection (st : ServerState) (ws : Nat) (token roleStr : Option String) :
    ServerState × Effect :=
  match parseReq token roleStr with
  | none =>
    ({ st with isOpen := fun x => if x = ws then false else st.isOpen x },
     { sends := [(ws, Envelope.error "Invalid token or role")],
       closes := [(ws, 1008, "Invalid token/role")] })
  | some (t, r) => joinRoom st ws t r

/-- An inbound frame on an established connection: either unparseable JSON
or a parsed message with a `type` and an optional `name` field. -/
inductive Inbound where
  | malformed
  | msg (ty : String) (name : Option String)
deriving DecidableEq, Repr

/-- `ws.on('message')` for a connection that joined token `t` as role `r`:
malformed JSON gets `error 'Invalid JSON'`; a `signal` named `signal-1` or
`signal-2` is forwarded to the opposite slot if that peer is `OPEN`, else
the sender gets `error 'Peer not connected'`; `ping` gets `pong`; every
other message falls off the end of the handler and is silently ignored.
The handler never mutates the registry and never closes a connection.
(The `rooms t = none` branch is unreachable for a joined sender: rooms are
created at join and never deleted.) -/
def handleMessage (st : ServerState) (t : Token) (r : Role) (ws : Nat)
    (m : Inbound) : Effect :=
  match m with
  | .malformed => { sends := [(ws, Envelope.error "Invalid JSON")], closes := [] }
  | .msg ty nm =>
    if ty = "signal" ∧ (nm = some "signal-1" ∨ nm = some "signal-2") then
      match st.rooms t with
      | none => { sends := [], closes := [] }
      | some room =>
        match room.get r.other with
        | some p =>
          if st.isOpen p then
            { sends := [(p, Envelope.signal (nm.getD ""))], closes := [] }
          else
            { sends := [(ws, Envelope.error "Peer not connected")], closes := [] }
        | none => { sends := [(ws, Envelope.error "Peer not connected")], closes := [] }
    else if ty = "ping" then
      { sends := [(ws, Envelope.pong)], closes := [] }
    else
      { sends := [], closes := [] }

/-- `onCloseOrError` (registered for both `close` and `error`):
`cleanupSocket(room, role)` — which nulls the slot unconditionally when the
room exists — followed by `broadcastStatus(token)`. -/
def onCloseOrError (st : ServerState) (t : Token) (r : Role) :
    ServerState × List (Nat × Envelope) :=
  match st.rooms t with
  | none => (st, [])
  | some room =>
    let st2 := { st with
      rooms := fun x => if x = t then some (room.set r none) else st.rooms x }
    (st2, broadcastStatus st2 t)

/-- The registry-mutating events the relay can experience: a connection
attempt, an inbound message (which never mutates the registry), a
close/error event for a connection that joined `(t, r)`, and a transport
loss that merely makes a connection non-`OPEN`. -/
inductive Op where
  | connect (ws : Nat) (token roleStr : Option String)
  | message (t : Token) (r : Role) (ws : Nat) (m : Inbound)
  | closeEvt (t : Token) (r : Role)
  | drop (c : Nat)

/-- State transition for one event. -/
def stepOp (st : ServerState) : Op → ServerState
  | .connect ws tk rs => (handleConnection st ws tk rs).1
  | .message _ _ _ _ => st
  | .closeEvt t r => (onCloseOrError st t r).1
  | .drop c => { st with isOpen := fun x => if x = c then false else st.isOpen x }

/-- Fresh relay: no rooms; connections start `OPEN`. -/
def initState : ServerState :=
  { rooms := fun _ => none, isOpen := fun _ => true }

/-- The state reached after a sequence of events. -/
def runOps (ops : List Op) : ServerState :=
  ops.foldl stepOp initState

/-! ## Client: connection and teardown (`src/src/pages/index.js`) -/

/-- The client's view of its WebSocket: just the `readyState`
(`WebSocket.OPEN` is 1). -/
structure ClientConn where
  readyState : Nat
deriving DecidableEq, Repr

/-- Client connection state: `wsRef.current` and the log lines. -/
structure ClientState where
  wsRef : Option ClientConn
  log : List String
deriving DecidableEq, Repr

/-- `addLog(msg)`: prepend and keep the most recent 100 lines
(`[msg, ...l].slice(0, 100)`). -/
def addLog (l : List String) (msg : String) : List String :=
  (msg :: l).take 100

/-- `sendSignal(name)`: transmit only when the socket reference exists and
its `readyState` is `OPEN`; otherwise just log.  Returns the new state and
the envelopes actually put on the wire. -/
def sendSignal (cs : ClientState) (name : String) : ClientState × List Envelope :=
  match cs.wsRef with
  | some ws =>
    if ws.readyState = 1 then
      ({ cs with log := addLog cs.log ("Sent " ++ name) }, [Envelope.signal name])
    else
      ({ cs with log := addLog cs.log "Cannot send, not connected" }, [])
  | none => ({ cs with log := addLog cs.log "Cannot send, not connected" }, [])

/-- `disconnectWS()`: close and null the ref if present, else do nothing.
The second component lists the `close()` calls made. -/
def disconnectWS (cs : ClientState) : ClientState × List String :=
  match cs.wsRef with
  | some _ => ({ cs with wsRef := none }, ["close"])
  | none => (cs, [])

/-- Microphone session resources: the pending animation-frame handle, the
audio context, and the single-knock confirmation timer. -/
structure MicState where
  micEnabled : Bool
  rafId : Option Nat
  audioCtx : Option Nat
  knockTimer : Option Nat
deriving DecidableEq, Repr

/-- `stopMic()`: disable the flag and release each resource that is still
held, nulling its ref.  The second component lists the release calls made
(`cancelAnimationFrame`, `audioCtx.close`, `clearTimeout`). -/
def stopMic (ms : MicState) : MicState × List String :=
  let a1 : List String := match ms.rafId with
    | some _ => ["cancelAnimationFrame"]
    | none => []
  let a2 : List String := match ms.audioCtx with
    | some _ => ["closeAudioContext"]
    | none => []
  let a3 : List String := match ms.knockTimer with
    | some _ => ["clearTimeout"]
    | none => []
  ({ micEnabled := false, rafId := none, audioCtx := none, knockTimer := none },
   a1 ++ a2 ++ a3)

/-! ## Gesture classifier (`onPointerDown` / `onPointerUp`) -/

/-- Per-surface gesture state: `lastTapTimeRef` (0 is the no-tap sentinel),
the pointer-down origin `touchStartRef`, and the pending single-tap timer
(`singleTapTimerRef`), modelled as the absolute time at which it fires. -/
structure GestureState where
  lastTap : Int
  startX : Int
  startY : Int
  startT : Int
  isDown : Bool
  timer : Option Int
deriving DecidableEq, Repr

/-- `onPointerDown` (primary pointer): record the origin. -/
def onPointerDown (st : GestureState) (now x y : Int) : GestureState :=
  { st with startX := x, startY := y, startT := now, isDown := true }

/-- The swipe test: `absDx > 60 && absDx > 2 * absDy`. -/
def isSwipe (dx dy : Int) : Prop :=
  60 < |dx| ∧ 2 * |dy| < |dx|

instance (dx dy : Int) : Decidable (isSwipe dx dy) :=
  inferInstanceAs (Decidable (60 < |dx| ∧ 2 * |dy| < |dx|))

/-- `onPointerUp` (primary pointer): swipe resolves immediately
(right → `signal-1`, left → `signal-2`) and resets tap state; otherwise a
tap within 300 ms of `lastTap` is a double tap (`signal-2` now, timer
cancelled, `lastTap` cleared); otherwise record the tap and arm the 300 ms
single-tap timer.  Returns the new state and the signal names emitted. -/
def onPointerUp (st : GestureState) (now x y : Int) : GestureState × List String :=
  let dx := x - st.startX
  let dy := y - st.startY
  let st0 := { st with isDown := false }
  if isSwipe dx dy then
    ({ st0 with timer := none, lastTap := 0 },
     [if 0 < dx then "signal-1" else "signal-2"])
  else if now - st.lastTap < 300 then
    ({ st0 with timer := none, lastTap := 0 }, ["signal-2"])
  else
    ({ st0 with lastTap := now, timer := some (now + 300) }, [])

/-- The single-tap timer callback: emit `signal-1` and null the ref. -/
def fireTapTimer (st : GestureState) : GestureState × List String :=
  ({ st with timer := none }, ["signal-1"])

/-! ## Acoustic knock classifier (`loopDetect` / `detect`) -/

/-- Knock state: `pendingKnockRef`, `lastKnockTimeRef`, and
`knockTimerRef` as the absolute time at which the 250 ms single-knock
timeout fires. -/
structure KnockState where
  pending : Bool
  lastKnock : Int
  timer : Option Int
deriving DecidableEq, Repr

/-- Fresh knock state. -/
def knockInit : KnockState := ⟨false, 0, none⟩

/-- The frame threshold test `rms > 0.2`, made exact on the byte samples:
with `v = (d - 128) / 128`, `sqrt((Σ v²) / n) > 1/5` iff
`25 · Σ (d - 128)² > 16384 · n`. -/
def rms_exceeds (data : List Int) : Bool :=
  decide (16384 * (data.length : Int) < 25 * (data.map (fun d => (d - 128) ^ 2)).sum)

/-- The body of `detect` for one frame at time `now` whose threshold test
is `knock`: a first knock sets `pending`, (re)arms the 250 ms timer and
records the time; a knock while pending within 1000 ms of the previous one
cancels the timer and emits `signal-2`; a later knock just updates the
recorded time.  Quiet frames do nothing. -/
def knockFrame (st : KnockState) (now : Int) (knock : Bool) :
    KnockState × List String :=
  if knock then
    if st.pending = false then
      ({ pending := true, lastKnock := now, timer := some (now + 250) }, [])
    else if now - st.lastKnock ≤ 1000 then
      ({ pending := false, lastKnock := now, timer := none }, ["signal-2"])
    else
      ({ st with lastKnock := now }, [])
  else (st, [])

/-- The 250 ms timeout callback: clear `pending` and emit `signal-1`
(a confirmed single knock). -/
def fireKnockTimer (st : KnockState) : KnockState × List String :=
  ({ st with pending := false, timer := none }, ["signal-1"])

/-- Run the classifier over time-ordered frames `(time, byte samples)`.
A scheduled timer due at or before a frame's time fires before that frame
is processed, as in the JS event loop. -/
def runKnock : KnockState → List (Int × List Int) → KnockState × List String
  | st, [] => (st, [])
  | st, (now, data) :: rest =>
    let fired : KnockState × List String :=
      match st.timer with
      | some tf => if tf ≤ now then fireKnockTimer st else (st, [])
      | none => (st, [])
    let stepped := knockFrame fired.1 now (rms_exceeds data)
    let tail := runKnock stepped.1 rest
    (tail.1, fired.2 ++ stepped.2 ++ tail.2)

/-- Run from the fresh state and let any still-pending timer fire at the
end (run to quiescence); returns every signal emitted. -/
def runKnockFlush (frames : List (Int × List Int)) : List String :=
  let out := runKnock knockInit frames
  match out.1.timer with
  | some _ => out.2 ++ (fireKnockTimer out.1).2
  | none => out.2

/-! ## Helper lemmas -/

/-- Every `OPEN` connection held in an existing room receives the status
payload computed from that room's occupancy. -/
theorem mem_broadcastStatus (st : ServerState) (t : Token) (room : Room)
    (c : Nat) (role' : Role) (h : st.rooms t = some room)
    (hc : room.get role' = some c) (ho : st.isOpen c = true) :
    (c, Envelope.status room.desktop.isSome room.web.isSome) ∈ broadcastStatus st t := by
  cases role' <;> simp [Room.get] at hc <;>
    simp [broadcastStatus, h, sendIfOpen, hc, ho]

/-- The sends of a validated join are the `connected` ack followed by the
status broadcast over the post-join state. -/
theorem joinRoom_sends (st : ServerState) (ws : Nat) (t : Token) (r : Role) :
    (joinRoom st ws t r).2.sends =
      (ws, Envelope.connected r t) :: broadcastStatus (joinRoom st ws t r).1 t := rfl

/-- When the room exists, the sends of the cleanup path are exactly the
status broadcast over the post-cleanup state. -/
theorem onCloseOrError_snd (st : ServerState) (t : Token) (r : Role) (room : Room)
    (h : st.rooms t = some room) :
    (onCloseOrError st t r).2 = broadcastStatus (onCloseOrError st t r).1 t := by
  simp [onCloseOrError, h]

/-! ## Claim theorems -/

/-- C1: a vocabulary signal (`signal-1` or `signal-2`) from a sender
registered under token `t` as role `r` is forwarded verbatim to the
opposite-role slot iff that slot holds an `OPEN` connection; otherwise the
sender — and never the peer — receives `error "Peer not connected"`, the
signal is dropped (no other send, nothing queued: the handler does not
touch the state), and the signal is never echoed back to the sender. -/
theorem signal_routing (st : ServerState) (t : Token) (r : Role) (ws : Nat)
    (n : String) (room : Room)
    (hroom : st.rooms t = some room)
    (hreg : room.get r = some ws)
    (hn : n = "signal-1" ∨ n = "signal-2") :
    (∀ p, room.get r.other = some p → st.isOpen p = true →
      handleMessage st t r ws (Inbound.msg "signal" (some n)) =
        { sends := [(p, Envelope.signal n)], closes := [] }) ∧
    ((∀ p, room.get r.other = some p → st.isOpen p = false) →
      handleMessage st t r ws (Inbound.msg "signal" (some n)) =
        { sends := [(ws, Envelope.error "Peer not connected")], closes := [] }) ∧
    (∀ p, room.get r.other = some p → st.isOpen p = true → p ≠ ws →
      ∀ e, (ws, e) ∉ (handleMessage st t r ws (Inbound.msg "signal" (some n))).sends) := by
  rcases hn with rfl | rfl <;>
  · refine ⟨fun p hp hop => ?_, fun hclosed => ?_, fun p hp hop hne e hmem => ?_⟩
    · simp [handleMessage, hroom, hp, hop]
    · cases hpo : room.get r.other with
      | none => simp [handleMessage, hroom, hpo]
      | some p => simp [handleMessage, hroom, hpo, hclosed p hpo]
    · simp [handleMessage, hroom, hp, hop] at hmem
      exact hne hmem.1.symm

/-- C1 witness: with desktop 1 and web 2 both registered under `"t"` and
everything `OPEN`, a `signal-1` from the desktop is forwarded to 2. -/
theorem signal_routing_witness :
    handleMessage
      ⟨fun x => if x = "t" then some ⟨some 1, some 2⟩ else none, fun _ => true⟩
      "t" Role.desktop 1 (Inbound.msg "signal" (some "signal-1")) =
      { sends := [(2, Envelope.signal "signal-1")], closes := [] } := by
  have h := signal_routing
    ⟨fun x => if x = "t" then some ⟨some 1, some 2⟩ else none, fun _ => true⟩
    "t" Role.desktop 1 "signal-1" ⟨some 1, some 2⟩ (by decide) (by decide)
    (Or.inl rfl)
  exact h.1 2 rfl rfl

/-- C2 counterexample: the claim says a `signal` with an unrecognized name
makes the relay reply with an `error` envelope to the sender; in the code
the condition `msg.type === 'signal' && (name ok)` fails, the `ping` check
fails, and the handler falls through — nothing at all is sent, even with an
`OPEN` peer present. -/
theorem unknown_signal_cex :
    handleMessage
      ⟨fun x => if x = "t" then some ⟨some 1, some 2⟩ else none, fun _ => true⟩
      "t" Role.desktop 1 (Inbound.msg "signal" (some "bogus")) =
      { sends := [], closes := [] } := by decide

/-- C2 (amended): malformed JSON gets `error "Invalid JSON"` sent to the
sender only; an envelope of unknown kind, or of kind `signal` with a name
outside the accepted vocabulary, is silently dropped — no reply at all.
In every case nothing reaches the peer and the sender's connection stays
open (the message handler never issues a close and never changes state). -/
theorem protocol_error_amended (st : ServerState) (t : Token) (r : Role)
    (ws : Nat) (ty : String) (nm : Option String)
    (h1 : ty = "signal" → nm ≠ some "signal-1" ∧ nm ≠ some "signal-2")
    (h2 : ty ≠ "ping") :
    handleMessage st t r ws Inbound.malformed =
      { sends := [(ws, Envelope.error "Invalid JSON")], closes := [] } ∧
    handleMessage st t r ws (Inbound.msg ty nm) = { sends := [], closes := [] } := by
  refine ⟨rfl, ?_⟩
  have hcond : ¬ (ty = "signal" ∧ (nm = some "signal-1" ∨ nm = some "signal-2")) := by
    rintro ⟨hty, hf | hf⟩
    · exact (h1 hty).1 hf
    · exact (h1 hty).2 hf
  simp [handleMessage, hcond, h2]

/-- C2 witness: malformed JSON is answered with the error envelope, an
unknown kind (`status` coming from a client) is silently ignored. -/
theorem protocol_error_amended_witness :
    handleMessage initState "t" Role.desktop 1 Inbound.malformed =
      { sends := [(1, Envelope.error "Invalid JSON")], closes := [] } ∧
    handleMessage initState "t" Role.desktop 1 (Inbound.msg "status" none) =
      { sends := [], closes := [] } :=
  protocol_error_amended initState "t" Role.desktop 1 "status" none
    (by decide) (by decide)

/-- C3 counterexample: the claim says a stale leave from an
already-replaced connection is a no-op and the newer occupant remains.
Concretely: connection 1 joins `"t"` as desktop, connection 2 joins the
same slot (replacing 1, which is force-closed); when 1's close event then
runs `onCloseOrError`, `cleanupSocket` nulls the slot unconditionally and
evicts the still-`OPEN` connection 2. -/
theorem stale_leave_cex :
    (handleConnection (handleConnection initState 1 (some "t") (some "desktop")).1
        2 (some "t") (some "desktop")).1.rooms "t" = some ⟨some 2, none⟩ ∧
    (handleConnection (handleConnection initState 1 (some "t") (some "desktop")).1
        2 (some "t") (some "desktop")).1.isOpen 2 = true ∧
    (onCloseOrError
        (handleConnection (handleConnection initState 1 (some "t") (some "desktop")).1
          2 (some "t") (some "desktop")).1
        "t" Role.desktop).1.rooms "t" = some ⟨none, none⟩ := by
  refine ⟨by decide, by decide, by decide⟩

/-- C3 (amended): whenever the room for `t` exists, a close/error cleanup
for role `r` sets `Room(t)[r]` to null unconditionally — with no guard
that the slot still holds the departing connection — so a stale leave
from a replaced connection clears the newer occupant. -/
theorem stale_leave_amended (st : ServerState) (t : Token) (r : Role) (room : Room)
    (h : st.rooms t = some room) :
    (onCloseOrError st t r).1.rooms t = some (room.set r none) := by
  simp [onCloseOrError, h]

/-- C3 witness: clearing the desktop slot of an existing room. -/
theorem stale_leave_amended_witness :
    (onCloseOrError
        ⟨fun x => if x = "t" then some ⟨some 5, some 6⟩ else none, fun _ => true⟩
        "t" Role.desktop).1.rooms "t" = some ⟨none, some 6⟩ :=
  stale_leave_amended _ "t" Role.desktop ⟨some 5, some 6⟩ (by decide)

/-- C5: a validated join for `(t, r)` whose slot already holds an `OPEN`
connection `c` force-closes `c` with code 4000
(`"Replaced by new connection"`) — distinct from the bad-request code
1008 — and installs the new connection in the slot; the new connection is
never closed (never rejected), and the single-valued slot ends holding
exactly the new connection. -/
theorem replacement (st : ServerState) (ws : Nat) (tk rs : Option String)
    (t : Token) (r : Role) (c : Nat) (room : Room)
    (hp : parseReq tk rs = some (t, r))
    (hroom : st.rooms t = some room)
    (hold : room.get r = some c)
    (hopen : st.isOpen c = true)
    (hne : c ≠ ws) :
    (handleConnection st ws tk rs).2.closes =
      [(c, 4000, "Replaced by new connection")] ∧
    (handleConnection st ws tk rs).1.rooms t = some (room.set r (some ws)) ∧
    (handleConnection st ws tk rs).1.isOpen c = false ∧
    (∀ code reason, (ws, code, reason) ∉ (handleConnection st ws tk rs).2.closes) ∧
    (4000 : Nat) ≠ 1008 := by
  have hE : handleConnection st ws tk rs = joinRoom st ws t r := by
    simp [handleConnection, hp]
  rw [hE]
  refine ⟨?_, ?_, ?_, ?_, by decide⟩
  · simp [joinRoom, getOrCreateRoom, hroom, hold, hopen]
  · simp [joinRoom, getOrCreateRoom, hroom, hold, hopen]
  · simp [joinRoom, getOrCreateRoom, hroom, hold, hopen]
  · intro code reason hmem
    simp [joinRoom, getOrCreateRoom, hroom, hold, hopen] at hmem
    exact hne hmem.1.symm

/-- C5 witness: connection 9 joins `"t"` as desktop while 7 occupies the
slot: 7 is closed with code 4000 and 9 takes the slot. -/
theorem replacement_witness :
    (handleConnection
        ⟨fun x => if x = "t" then some ⟨some 7, none⟩ else none, fun _ => true⟩
        9 (some "t") (some "desktop")).2.closes =
      [(7, 4000, "Replaced by new connection")] ∧
    (handleConnection
        ⟨fun x => if x = "t" then some ⟨some 7, none⟩ else none, fun _ => true⟩
        9 (some "t") (some "desktop")).1.rooms "t" = some ⟨some 9, none⟩ := by
  have h := replacement
    ⟨fun x => if x = "t" then some ⟨some 7, none⟩ else none, fun _ => true⟩
    9 (some "t") (some "desktop") "t" Role.desktop 7 ⟨some 7, none⟩
    (by decide) (by decide) (by decide) (by decide) (by decide)
  exact ⟨h.1, h.2.1⟩

/-- C6: after every validated join and after every leave on token `t`,
every connection held in the resulting room that is `OPEN` — a lone
occupant and the connection that just joined included — is sent a `status`
envelope whose `desktop`/`web` booleans are exactly the occupancy
(slot non-absence) of the resulting room. -/
theorem status_broadcast (st : ServerState) (ws : Nat) (tk rs : Option String)
    (t : Token) (r : Role) :
    (∀ t' r', parseReq tk rs = some (t', r') →
      ∀ room' c role', (handleConnection st ws tk rs).1.rooms t' = some room' →
        room'.get role' = some c →
        (handleConnection st ws tk rs).1.isOpen c = true →
        (c, Envelope.status room'.desktop.isSome room'.web.isSome) ∈
          (handleConnection st ws tk rs).2.sends) ∧
    (∀ room' c role', (onCloseOrError st t r).1.rooms t = some room' →
      room'.get role' = some c →
      (onCloseOrError st t r).1.isOpen c = true →
      (c, Envelope.status room'.desktop.isSome room'.web.isSome) ∈
        (onCloseOrError st t r).2) := by
  constructor
  · intro t' r' hp room' c role' h1 h2 h3
    have hE : handleConnection st ws tk rs = joinRoom st ws t' r' := by
      simp [handleConnection, hp]
    rw [hE] at h1 h3 ⊢
    rw [joinRoom_sends]
    exact List.mem_cons_of_mem _ (mem_broadcastStatus _ _ _ _ _ h1 h2 h3)
  · intro room' c role' h1 h2 h3
    cases hR : st.rooms t with
    | none =>
      rw [show onCloseOrError st t r = (st, []) from by simp [onCloseOrError, hR]] at h1
      rw [hR] at h1
      exact absurd h1 (by simp)
    | some room =>
      rw [onCloseOrError_snd st t r room hR]
      exact mem_broadcastStatus _ _ _ _ _ h1 h2 h3

/-- C6 witness: a lone web join under a fresh token is itself sent
`status{desktop: false, web: true}`. -/
theorem status_broadcast_witness :
    (1, Envelope.status false true) ∈
      (handleConnection initState 1 (some "t") (some "web")).2.sends := by
  have h := status_broadcast initState 1 (some "t") (some "web") "t" Role.web
  exact h.1 "t" Role.web (by decide) ⟨none, some 1⟩ 1 Role.web (by decide) rfl
    (by decide)

/-- C7: in every state reachable by any sequence of connection, message,
close/error, and transport-loss events, each role slot of each room holds
at most one connection — two `OPEN` connections are never simultaneously
registered as the same role under the same token. -/
theorem pairing_uniqueness (ops : List Op) (t : Token) (r : Role) (room : Room)
    (c1 c2 : Nat)
    (h : (runOps ops).rooms t = some room)
    (h1 : room.get r = some c1) (h2 : room.get r = some c2)
    (ho1 : (runOps ops).isOpen c1 = true)
    (ho2 : (runOps ops).isOpen c2 = true) :
    c1 = c2 := by
  rw [h1] at h2
  exact Option.some.inj h2

/-- C7 witness: after one desktop join, the slot holds exactly 1. -/
theorem pairing_uniqueness_witness :
    (runOps [Op.connect 1 (some "t") (some "desktop")]).rooms "t" =
      some ⟨some 1, none⟩ ∧ (1 : Nat) = 1 :=
  ⟨by decide,
   pairing_uniqueness [Op.connect 1 (some "t") (some "desktop")] "t" Role.desktop
     ⟨some 1, none⟩ 1 1 (by decide) (by decide) (by decide) (by decide) (by decide)⟩

/-- C4: the claim says two knock frames separated by 250–1000 ms (e.g.
400 ms) complete as one `signal-2` and zero `signal-1`, the single-knock
timer still being cancellable when the second knock is evaluated.  In the
code the 250 ms `setTimeout` has already fired by then — it cleared
`pendingKnockRef` and sent `signal-1` — so the second knock starts a fresh
single-knock cycle: the pair yields two `signal-1` and no `signal-2`.
Only a second knock arriving before the 250 ms timeout (e.g. at 100 ms)
still finds `pending` set and produces `signal-2`; the `delta <= 1000`
pairing window is unreachable beyond 250 ms. -/
theorem knock_pair_divergence :
    runKnockFlush [(0, [255, 0]), (400, [255, 0])] = ["signal-1", "signal-1"] ∧
    runKnockFlush [(0, [255, 0]), (100, [255, 0])] = ["signal-2"] ∧
    rms_exceeds [255, 0] = true := by
  refine ⟨by decide, by decide, by decide⟩

/-- C8 counterexample: the claim says a tap with no previous tap recorded
within 300 ms records its timestamp and arms the single-tap timer.  The
code only tests `now - lastTapTimeRef.current < TAP_WINDOW` with 0 as the
no-tap sentinel, so the very first tap, landing within 300 ms of the time
origin, is misread as a double-tap: it emits `signal-2` immediately and
arms no timer. -/
theorem tap_sentinel_cex :
    onPointerUp (onPointerDown ⟨0, 0, 0, 0, false, none⟩ 50 10 10) 100 10 10 =
      (⟨0, 10, 10, 50, false, none⟩, ["signal-2"]) := by decide

/-- C8 (amended): for a pointer-up that is a tap candidate (not a swipe):
if `now - lastTap < 300` — which, whenever a previous tap is recorded, is
exactly "recorded within the last 300 ms", but also captures the sentinel
`lastTap = 0` when `now < 300` — the pending single-tap timer is
cancelled, exactly one `signal-2` is emitted immediately and the last-tap
timestamp is cleared; otherwise the tap's timestamp is recorded and a
timer is armed for `now + 300` which, if unopposed, emits exactly one
`signal-1` when it fires. -/
theorem tap_classifier_amended (st : GestureState) (now x y : Int)
    (htap : ¬ isSwipe (x - st.startX) (y - st.startY)) :
    (now - st.lastTap < 300 →
      onPointerUp st now x y =
        ({ st with isDown := false, timer := none, lastTap := 0 }, ["signal-2"])) ∧
    (¬ now - st.lastTap < 300 →
      onPointerUp st now x y =
        ({ st with isDown := false, lastTap := now, timer := some (now + 300) }, []) ∧
      fireTapTimer
          { st with isDown := false, lastTap := now, timer := some (now + 300) } =
        ({ st with isDown := false, lastTap := now, timer := none }, ["signal-1"])) := by
  constructor
  · intro hlt
    simp [onPointerUp, htap, hlt]
  · intro hge
    exact ⟨by simp [onPointerUp, htap, hge], rfl⟩

/-- C8 witness: a second tap 150 ms after a recorded tap resolves as a
double tap: one `signal-2`, timer cancelled, timestamp cleared. -/
theorem tap_classifier_amended_witness :
    onPointerUp ⟨200, 0, 0, 100, true, some 500⟩ 350 0 0 =
      (⟨0, 0, 0, 100, false, none⟩, ["signal-2"]) := by
  have h := tap_classifier_amended ⟨200, 0, 0, 100, true, some 500⟩ 350 0 0 (by decide)
  exact h.1 (by decide)

/-- C9 counterexample: the claim says running the cleanup path twice for
the same departure produces no second status broadcast.  With desktop 1
(already non-`OPEN`) and web 2 (`OPEN`) under `"t"`, the second
`onCloseOrError` for the same departure broadcasts again: connection 2
receives a second, identical `status` envelope. -/
theorem teardown_cex :
    (onCloseOrError
        ⟨fun x => if x = "t" then some ⟨some 1, some 2⟩ else none,
         fun c => if c = 1 then false else true⟩
        "t" Role.desktop).2 = [(2, Envelope.status false true)] ∧
    (onCloseOrError
        (onCloseOrError
          ⟨fun x => if x = "t" then some ⟨some 1, some 2⟩ else none,
           fun c => if c = 1 then false else true⟩
          "t" Role.desktop).1
        "t" Role.desktop).2 = [(2, Envelope.status false true)] := by
  refine ⟨by decide, by decide⟩

/-- C9 (amended): client teardown is idempotent — a second `disconnectWS`
or `stopMic` performs no action and leaves the state unchanged (no error
from re-clearing a cleared timer).  The relay cleanup is idempotent on the
registry state and raises no error, but it re-broadcasts on every
invocation: a second run for the same departure produces the same sends
again (a duplicate `status` envelope to any `OPEN` peer). -/
theorem teardown_amended (cs : ClientState) (ms : MicState) (st : ServerState)
    (t : Token) (r : Role) (room : Room) (h : st.rooms t = some room) :
    disconnectWS (disconnectWS cs).1 = ((disconnectWS cs).1, []) ∧
    stopMic (stopMic ms).1 = ((stopMic ms).1, []) ∧
    onCloseOrError (onCloseOrError st t r).1 t r = onCloseOrError st t r := by
  refine ⟨?_, rfl, ?_⟩
  · cases hcs : cs.wsRef <;> simp [disconnectWS, hcs]
  · have hset : (room.set r none).set r none = room.set r none := by
      cases r <;> rfl
    have hA : onCloseOrError st t r =
        ({ st with rooms := fun x =>
            if x = t then some (room.set r none) else st.rooms x },
         broadcastStatus
           { st with rooms := fun x =>
              if x = t then some (room.set r none) else st.rooms x } t) := by
      simp [onCloseOrError, h]
    rw [hA]
    have hfun : (fun x =>
        if x = t then some ((room.set r none).set r none)
        else if x = t then some (room.set r none) else st.rooms x) =
        (fun x => if x = t then some (room.set r none) else st.rooms x) := by
      funext x
      by_cases hx : x = t <;> simp [hx, hset]
    simp only [onCloseOrError, if_pos rfl]
    simp [hfun]

/-- C9 witness: concrete double teardown on all three paths. -/
theorem teardown_amended_witness :
    disconnectWS (disconnectWS ⟨some ⟨1⟩, []⟩).1 =
      ((disconnectWS ⟨some ⟨1⟩, []⟩).1, []) ∧
    stopMic (stopMic ⟨true, some 1, some 2, some 3⟩).1 =
      ((stopMic ⟨true, some 1, some 2, some 3⟩).1, []) ∧
    onCloseOrError
        (onCloseOrError
          ⟨fun x => if x = "t" then some ⟨some 1, some 2⟩ else none,
           fun c => if c = 1 then false else true⟩
          "t" Role.desktop).1
        "t" Role.desktop =
      onCloseOrError
        ⟨fun x => if x = "t" then some ⟨some 1, some 2⟩ else none,
         fun c => if c = 1 then false else true⟩
        "t" Role.desktop :=
  teardown_amended ⟨some ⟨1⟩, []⟩ ⟨true, some 1, some 2, some 3⟩ _ "t"
    Role.desktop ⟨some 1, some 2⟩ (by decide)

/-- C10: when the WebSocket reference is absent or its `readyState` is not
`OPEN`, `sendSignal(name)` transmits nothing, raises nothing, retries
nothing, and only prepends the local log line
`"Cannot send, not connected"`; the socket reference is untouched. -/
theorem sendSignal_noop (cs : ClientState) (name : String)
    (h : ∀ ws, cs.wsRef = some ws → ws.readyState ≠ 1) :
    sendSignal cs name =
      ({ cs with log := addLog cs.log "Cannot send, not connected" }, []) := by
  cases hcs : cs.wsRef with
  | none => simp [sendSignal, hcs]
  | some ws => simp [sendSignal, hcs, h ws hcs]

/-- C10 witness: with no socket at all, a gesture's `signal-1` goes
nowhere and only the log line is added. -/
theorem sendSignal_noop_witness :
    sendSignal ⟨none, []⟩ "signal-1" =
      (⟨none, ["Cannot send, not connected"]⟩, []) := by
  have h := sendSignal_noop ⟨none, []⟩ "signal-1"
    (fun ws hws => Option.noConfusion hws)
  exact h
